import Mathlib

/-!
Verification of the axion school-management system core.

The development shallowly embeds:
* the action lattice and static layer tree from the permission
  configuration file (the `layers` / `actions` module),
* the hierarchical authorization engine (the `shark` collaborator whose
  implementation lives outside the repository sources; it is modelled
  from the design spec, sections 4.1 to 4.3),
* the entity/relation store interface (the `oyster` collaborator,
  modelled from the design spec, section 4.4),
* the domain managers (school, classroom, student, user) translated
  from the repository sources.
-/

namespace Axion

/-! ## Action lattice

Translated from the `actions` table of the static permission
configuration (`blocked: -1, none: 1, read: 2, create: 3, audit: 4,
config: 5, delete: 6, update: 7`). -/

inductive Action : Type where
  | blocked
  | none
  | read
  | create
  | audit
  | config
  | delete
  | update
deriving DecidableEq

def Action.rank : Action → Int
  | .blocked => -1
  | .none => 1
  | .read => 2
  | .create => 3
  | .audit => 4
  | .config => 5
  | .delete => 6
  | .update => 7

/-- Modelled from the spec: `atLeast(actual, required)` is the rank
threshold comparison of the action lattice (section 4.1); the actual
action must rank at least as high as the required one. -/
def atLeast (actual required : Action) : Bool :=
  required.rank ≤ actual.rank

/-! ## Categories, variants, rule sets

Translated from the rule-set keys used by the static `layers`
configuration (`anyoneCan`, `ownerCan`, `adminCan`, `superAdminCan`,
`inherit`).  The stray `noOneCan` key appearing once in the source
configuration is not one of the four viewer categories and is never
consulted, so it does not appear in the embedding. -/

inductive Category : Type where
  | anyone
  | owner
  | admin
  | superAdmin
deriving DecidableEq

inductive Variant : Type where
  | dflt
  | pub
  | priv
  | store
deriving DecidableEq

structure RuleSet where
  anyoneCan : Option Action := Option.none
  ownerCan : Option Action := Option.none
  adminCan : Option Action := Option.none
  superAdminCan : Option Action := Option.none
  inherit : Bool := false
deriving DecidableEq

def RuleSet.get (rs : RuleSet) : Category → Option Action
  | .anyone => rs.anyoneCan
  | .owner => rs.ownerCan
  | .admin => rs.adminCan
  | .superAdmin => rs.superAdminCan

/-! ## Layer tree

Translated from the `layers` object of the permission configuration:
`board → school → class → student`, each node carrying the four
variant rule sets. -/

inductive Layer : Type where
  | node : (Variant → RuleSet) → List (String × Layer) → Layer

def Layer.rulesOf : Layer → Variant → RuleSet
  | .node r _, v => r v

def Layer.children : Layer → List (String × Layer)
  | .node _ c => c

def inheritRS : RuleSet := { inherit := true }

def boardRules : Variant → RuleSet
  | .dflt => { anyoneCan := some .read, ownerCan := some .audit }
  | .pub => { anyoneCan := some .create, ownerCan := some .audit }
  | .priv => { anyoneCan := some .none }
  | .store => { anyoneCan := some .read }

def schoolRules : Variant → RuleSet
  | .dflt => { adminCan := some .read, superAdminCan := some .update }
  | .pub => { anyoneCan := some .none }
  | .priv => inheritRS
  | .store => inheritRS

def classRules : Variant → RuleSet
  | .dflt => { adminCan := some .update, superAdminCan := some .read }
  | _ => inheritRS

def studentRules : Variant → RuleSet
  | .dflt => { adminCan := some .update, superAdminCan := some .none }
  | _ => inheritRS

def layers : List (String × Layer) :=
  [("board", .node boardRules
    [("school", .node schoolRules
      [("class", .node classRules
        [("student", .node studentRules [])])])])]

/-! ## Rule resolution

Modelled from the spec: `resolveRule(nodeId, variant, category)`
(section 4.2).  The dot path is walked from the root; unknown path
segments are treated as implicitly-inheriting leaves with empty rule
sets, so resolution falls through to the rule sets collected along the
known prefix, deepest node first.  At each node an explicit entry wins;
an absent entry falls to the parent only when the variant rule set has
`inherit` true; exhaustion yields the `blocked` sentinel. -/

def splitDotsAux : List Char → List Char → List String
  | [], acc => [String.mk acc.reverse]
  | c :: rest, acc =>
    if c = '.' then String.mk acc.reverse :: splitDotsAux rest []
    else splitDotsAux rest (c :: acc)

/-- Dot-path parser (the semantics of splitting a node id on the dot
separator, written structurally so that concrete instances evaluate). -/
def splitDots (s : String) : List String :=
  splitDotsAux s.data []

def collectChain (v : Variant) : List (String × Layer) → List String → List RuleSet
  | _, [] => []
  | forest, seg :: rest =>
    match forest.lookup seg with
    | Option.none => []
    | some l => collectChain v l.children rest ++ [l.rulesOf v]

def resolveAlong (cat : Category) : List RuleSet → Action
  | [] => .blocked
  | rs :: rest =>
    match rs.get cat with
    | some a => a
    | Option.none => if rs.inherit then resolveAlong cat rest else .blocked

def resolveRule (nodeId : String) (v : Variant) (cat : Category) : Action :=
  resolveAlong cat (collectChain v layers (splitDots nodeId))

/-! ## Authorization engine

Modelled from the spec: the `shark` engine (`isGranted`,
`addDirectAccess`) is consumed through a narrow interface; its
implementation is not among the repository sources (only its static
configuration, its mock, and its callers are), so the decision
procedure of section 4.3 is modelled here: a direct grant for the exact
`(userId, nodeId)` with sufficient rank wins immediately; otherwise the
static tree resolves the minimum rule for the viewer category under the
`default` variant, the `blocked` sentinel always denies, and otherwise
the resolved rule must rank at least as high as the requested action. -/

structure DirectGrant where
  userId : String
  nodeId : String
  action : Action
deriving DecidableEq

def addDirectAccess (grants : List DirectGrant) (g : DirectGrant) : List DirectGrant :=
  g :: grants

def isGranted (grants : List DirectGrant) (userId nodeId : String)
    (cat : Category) (act : Action) : Bool :=
  if grants.any (fun g => g.userId == userId && g.nodeId == nodeId && atLeast g.action act) then
    true
  else
    let rule := resolveRule nodeId Variant.dflt cat
    if rule = Action.blocked then false else atLeast rule act

/-- Modelled from the spec: the fixed role-to-category table (section
4.3); the roles appearing in the sources are `superadmin`,
`schoolAdmin` and `user`, and a role outside this set maps to no
category. -/
def roleToCategory (role : String) : Option Category :=
  if role = "superadmin" then some .superAdmin
  else if role = "schoolAdmin" then some .admin
  else if role = "user" then some .anyone
  else Option.none

def isGrantedForRole (grants : List DirectGrant) (userId nodeId role : String)
    (act : Action) : Bool :=
  match roleToCategory role with
  | some cat => isGranted grants userId nodeId cat act
  | Option.none => false

/-! ## Claims about the action lattice and the authorization engine -/

/-- C1: in the static layer tree, where the default variant of
`board.school` gives `adminCan = read` and the default variant of
`board.school.class` gives `adminCan = update`, a user of category
`admin` requesting `update` at node `board.school.class.42` is granted,
and the same user requesting `update` at node `board.school.7` is
denied. -/
theorem admin_update_scenario :
    isGranted [] "u" "board.school.class.42" Category.admin Action.update = true ∧
    isGranted [] "u" "board.school.7" Category.admin Action.update = false := by
  decide

/-- C6: the action ranking assigns exactly `blocked = -1`, `none = 1`,
`read = 2`, `create = 3`, `audit = 4`, `config = 5`, `delete = 6`,
`update = 7`, `blocked` ranks strictly below every other action, and
`blocked` never satisfies a threshold comparison against another
action. -/
theorem action_ranks :
    Action.rank .blocked = -1 ∧ Action.rank .none = 1 ∧ Action.rank .read = 2 ∧
    Action.rank .create = 3 ∧ Action.rank .audit = 4 ∧ Action.rank .config = 5 ∧
    Action.rank .delete = 6 ∧ Action.rank .update = 7 ∧
    ∀ a : Action, a ≠ .blocked →
      Action.rank .blocked < Action.rank a ∧ atLeast .blocked a = false := by
  refine ⟨rfl, rfl, rfl, rfl, rfl, rfl, rfl, rfl, ?_⟩
  intro a ha
  cases a
  · exact absurd rfl ha
  all_goals exact ⟨by decide, by decide⟩

/-- Witness for C6 at the concrete action `none`. -/
theorem action_ranks_witness :
    (Action.none ≠ Action.blocked) ∧
    Action.rank .blocked < Action.rank Action.none ∧
    atLeast .blocked Action.none = false :=
  ⟨by decide, action_ranks.2.2.2.2.2.2.2.2 Action.none (by decide)⟩

/-- C7: the threshold comparison `atLeast` is reflexive on every
action, and `blocked` ranks strictly below `none`. -/
theorem atLeast_refl :
    (∀ a : Action, atLeast a a = true) ∧
    Action.rank .blocked < Action.rank Action.none := by
  constructor
  · intro a; cases a <;> rfl
  · decide

/-- C2: a direct grant of action `g` at `(userId, layerId)` makes
`isGranted` succeed at that exact `(userId, layerId)` for every
requested action of rank at most the rank of `g`, for every category
and regardless of the static tree (the node id and the previously
stored grants are arbitrary). -/
theorem directGrant_overrides (grants : List DirectGrant) (userId layerId : String)
    (cat : Category) (g a : Action) (h : a.rank ≤ g.rank) :
    isGranted (addDirectAccess grants ⟨userId, layerId, g⟩) userId layerId cat a = true := by
  unfold isGranted addDirectAccess
  simp [atLeast, h]

/-- Witness for C2: a direct `update` grant at a school node admits a
`read` request there. -/
theorem directGrant_overrides_witness :
    Action.rank Action.read ≤ Action.rank Action.update ∧
    isGranted (addDirectAccess [] ⟨"u1", "board.school.s1", Action.update⟩)
      "u1" "board.school.s1" Category.admin Action.read = true :=
  ⟨by decide, directGrant_overrides [] "u1" "board.school.s1" Category.admin
      Action.update Action.read (by decide)⟩

/-- C3: with no direct grants, a role outside the known role set is
denied for every node and every action (the engine is a total function,
so it never raises); a chain of rule sets none of which defines an
entry for the category resolves to the `blocked` sentinel; and whenever
resolution yields `blocked`, `isGranted` denies regardless of the
requested action. -/
theorem unknown_role_and_blocked_deny :
    (∀ role : String, role ∉ (["superadmin", "schoolAdmin", "user"] : List String) →
      ∀ (userId nodeId : String) (act : Action),
        isGrantedForRole [] userId nodeId role act = false) ∧
    (∀ (chain : List RuleSet) (cat : Category),
      (∀ rs ∈ chain, rs.get cat = Option.none) →
      resolveAlong cat chain = Action.blocked) ∧
    (∀ (userId nodeId : String) (cat : Category) (act : Action),
      resolveRule nodeId Variant.dflt cat = Action.blocked →
      isGranted [] userId nodeId cat act = false) := by
  refine ⟨?_, ?_, ?_⟩
  · intro role hrole userId nodeId act
    simp only [List.mem_cons, List.mem_singleton, not_or] at hrole
    obtain ⟨h1, h2, h3⟩ := hrole
    simp [isGrantedForRole, roleToCategory, h1, h2, h3]
  · intro chain cat h
    induction chain with
    | nil => rfl
    | cons rs rest ih =>
      have hrs : rs.get cat = Option.none := h rs (by simp)
      have hrest : ∀ r ∈ rest, r.get cat = Option.none := fun r hr => h r (by simp [hr])
      cases hin : rs.inherit <;> simp [resolveAlong, hrs, hin, ih hrest]
  · intro userId nodeId cat act h
    simp [isGranted, h]

/-- Witness for C3: the role `ghost` is unknown and denied, a chain of
inheriting rule sets with no admin entry resolves to `blocked`, and the
unknown node `board.nowhere` denies an admin `update` request. -/
theorem unknown_role_and_blocked_deny_witness :
    ("ghost" ∉ (["superadmin", "schoolAdmin", "user"] : List String)) ∧
    isGrantedForRole [] "u" "board.school" "ghost" Action.read = false ∧
    resolveAlong Category.admin [inheritRS] = Action.blocked ∧
    resolveRule "board.nowhere" Variant.dflt Category.admin = Action.blocked ∧
    isGranted [] "u" "board.nowhere" Category.admin Action.update = false :=
  ⟨by decide,
   unknown_role_and_blocked_deny.1 "ghost" (by decide) "u" "board.school" Action.read,
   unknown_role_and_blocked_deny.2.1 [inheritRS] Category.admin (by decide),
   by decide,
   unknown_role_and_blocked_deny.2.2 "u" "board.nowhere" Category.admin Action.update
     (by decide)⟩

/-! ## Relation store

Modelled from the spec: the `oyster` entity/relation store (section
4.4) is an external collaborator consumed through `update_relations`
(`add` unions members into the named score-weighted set, `remove`
subtracts by id, `set` replaces the set wholesale) and `nav_relation`
(returns the current member set).  Keys and member ids are kept
polymorphic so the same model serves both the raw string interface and
the structured `(label, id)` keys used by the domain managers. -/

abbrev Members (μ : Type) := List (μ × Int)

abbrev Rel (κ μ : Type) := List ((κ × String) × Members μ)

def alistGet {α β : Type} [DecidableEq α] : List (α × β) → α → Option β
  | [], _ => Option.none
  | (k, v) :: rest, key => if k = key then some v else alistGet rest key

def alistSet {α β : Type} [DecidableEq α] (l : List (α × β)) (k : α) (v : β) :
    List (α × β) :=
  (k, v) :: l.filter fun p => decide (p.1 ≠ k)

def membersUpsert {μ : Type} [DecidableEq μ] (ms : Members μ) (x : μ) (s : Int) :
    Members μ :=
  (ms.filter fun p => decide (p.1 ≠ x)) ++ [(x, s)]

def membersAddAll {μ : Type} [DecidableEq μ] (ms : Members μ) : Members μ → Members μ
  | [] => ms
  | (x, s) :: rest => membersAddAll (membersUpsert ms x s) rest

def membersRemoveAll {μ : Type} [DecidableEq μ] (ms : Members μ) (xs : List μ) :
    Members μ :=
  ms.filter fun p => decide (p.1 ∉ xs)

def relGet {κ μ : Type} [DecidableEq κ] (r : Rel κ μ) (src : κ) (name : String) :
    Members μ :=
  (alistGet r (src, name)).getD []

def relAdd {κ μ : Type} [DecidableEq κ] [DecidableEq μ] (r : Rel κ μ) (src : κ)
    (name : String) (new : Members μ) : Rel κ μ :=
  alistSet r (src, name) (membersAddAll (relGet r src name) new)

def relRemove {κ μ : Type} [DecidableEq κ] [DecidableEq μ] (r : Rel κ μ) (src : κ)
    (name : String) (xs : List μ) : Rel κ μ :=
  alistSet r (src, name) (membersRemoveAll (relGet r src name) xs)

def relSetAll {κ μ : Type} [DecidableEq κ] (r : Rel κ μ) (src : κ)
    (name : String) (ms : Members μ) : Rel κ μ :=
  alistSet r (src, name) ms

def navRelation {κ μ : Type} [DecidableEq κ] (r : Rel κ μ) (src : κ)
    (name : String) : Members μ :=
  relGet r src name

theorem alistGet_set_self {α β : Type} [DecidableEq α] (l : List (α × β)) (k : α)
    (v : β) : alistGet (alistSet l k v) k = some v := by
  simp [alistSet, alistGet]

theorem alistGet_filter_none {α β : Type} [DecidableEq α] (l : List (α × β)) (k : α)
    (p : α × β → Bool) (hp : ∀ v, p (k, v) = false) :
    alistGet (l.filter p) k = Option.none := by
  induction l with
  | nil => rfl
  | cons hd tl ih =>
    obtain ⟨a, b⟩ := hd
    by_cases hak : a = k
    · subst hak
      simp [List.filter, hp b, ih]
    · cases hpa : p (a, b) <;> simp [List.filter, hpa, ih, alistGet, hak]

theorem alistGet_append_none {α β : Type} [DecidableEq α] (l₁ l₂ : List (α × β))
    (k : α) (h : alistGet l₁ k = Option.none) :
    alistGet (l₁ ++ l₂) k = alistGet l₂ k := by
  induction l₁ with
  | nil => rfl
  | cons hd tl ih =>
    obtain ⟨a, b⟩ := hd
    rw [List.cons_append]
    by_cases hak : a = k
    · simp [alistGet, hak] at h
    · simp only [alistGet, if_neg hak] at h ⊢
      exact ih h

theorem memberScore_upsert_self {μ : Type} [DecidableEq μ] (ms : Members μ) (x : μ)
    (s : Int) : alistGet (membersUpsert ms x s) x = some s := by
  unfold membersUpsert
  rw [alistGet_append_none]
  · simp [alistGet]
  · exact alistGet_filter_none _ _ _ (fun v => by simp)

theorem alistGet_filter_pos {α β : Type} [DecidableEq α] (l : List (α × β)) (k : α)
    (p : α × β → Bool) (hp : ∀ v, p (k, v) = true) :
    alistGet (l.filter p) k = alistGet l k := by
  induction l with
  | nil => rfl
  | cons hd tl ih =>
    obtain ⟨a, b⟩ := hd
    by_cases hak : a = k
    · subst hak
      simp [List.filter_cons, hp b, alistGet]
    · cases hpa : p (a, b) <;> simp [List.filter_cons, hpa, ih, alistGet, hak]

theorem alistGet_append_some {α β : Type} [DecidableEq α] (l₁ l₂ : List (α × β))
    (k : α) (v : β) (h : alistGet l₁ k = some v) :
    alistGet (l₁ ++ l₂) k = some v := by
  induction l₁ with
  | nil => simp [alistGet] at h
  | cons hd tl ih =>
    obtain ⟨a, b⟩ := hd
    rw [List.cons_append]
    by_cases hak : a = k
    · simp only [alistGet, if_pos hak] at h ⊢
      exact h
    · simp only [alistGet, if_neg hak] at h ⊢
      exact ih h

theorem alistGet_set_ne {α β : Type} [DecidableEq α] (l : List (α × β)) (k k' : α)
    (v : β) (h : k' ≠ k) : alistGet (alistSet l k v) k' = alistGet l k' := by
  unfold alistSet
  simp only [alistGet, if_neg (fun hh : k = k' => h hh.symm)]
  exact alistGet_filter_pos l k' _ (fun w => by simp [h])

theorem memberScore_upsert_ne {μ : Type} [DecidableEq μ] (ms : Members μ) (x y : μ)
    (s : Int) (h : y ≠ x) :
    alistGet (membersUpsert ms x s) y = alistGet ms y := by
  unfold membersUpsert
  have hf := alistGet_filter_pos ms y (fun p => decide (p.1 ≠ x)) (fun v => by simp [h])
  cases hm : alistGet ms y with
  | none => rw [alistGet_append_none _ _ _ (hf.trans hm)]; simp [alistGet, Ne.symm h]
  | some v => exact alistGet_append_some _ _ _ _ (hf.trans hm)

theorem membersAddAll_single {μ : Type} [DecidableEq μ] (ms : Members μ) (x : μ)
    (s : Int) : membersAddAll ms [(x, s)] = membersUpsert ms x s :=
  rfl

theorem memberScore_removeAll_mem {μ : Type} [DecidableEq μ] (ms : Members μ)
    (xs : List μ) (x : μ) (h : x ∈ xs) :
    alistGet (membersRemoveAll ms xs) x = Option.none :=
  alistGet_filter_none _ _ _ (fun v => by simp [h])

theorem memberScore_removeAll_notMem {μ : Type} [DecidableEq μ] (ms : Members μ)
    (xs : List μ) (y : μ) (h : y ∉ xs) :
    alistGet (membersRemoveAll ms xs) y = alistGet ms y :=
  alistGet_filter_pos _ _ _ (fun v => by simp [h])

theorem relGet_relAdd_self {κ μ : Type} [DecidableEq κ] [DecidableEq μ] (r : Rel κ μ)
    (src : κ) (n : String) (new : Members μ) :
    relGet (relAdd r src n new) src n = membersAddAll (relGet r src n) new := by
  simp [relAdd, relGet, alistGet_set_self]

theorem relGet_relAdd_ne {κ μ : Type} [DecidableEq κ] [DecidableEq μ] (r : Rel κ μ)
    (src src' : κ) (n n' : String) (new : Members μ)
    (h : (src', n') ≠ (src, n)) :
    relGet (relAdd r src n new) src' n' = relGet r src' n' := by
  simp [relAdd, relGet, alistGet_set_ne _ _ _ _ h]

theorem relGet_relRemove_self {κ μ : Type} [DecidableEq κ] [DecidableEq μ]
    (r : Rel κ μ) (src : κ) (n : String) (xs : List μ) :
    relGet (relRemove r src n xs) src n = membersRemoveAll (relGet r src n) xs := by
  simp [relRemove, relGet, alistGet_set_self]

theorem relGet_relRemove_ne {κ μ : Type} [DecidableEq κ] [DecidableEq μ]
    (r : Rel κ μ) (src src' : κ) (n n' : String) (xs : List μ)
    (h : (src', n') ≠ (src, n)) :
    relGet (relRemove r src n xs) src' n' = relGet r src' n' := by
  simp [relRemove, relGet, alistGet_set_ne _ _ _ _ h]

/-- C8: the relation round trip: adding member `x` with score `s` to
relation `r` of source `id` makes `navRelation` report `x` with score
`s`, and then removing `x` makes `navRelation` omit `x`; this holds
over any prior relation state. -/
theorem relation_round_trip (rel : Rel String String) (id r x : String) (s : Int) :
    alistGet (navRelation (relAdd rel id r [(x, s)]) id r) x = some s ∧
    alistGet (navRelation (relRemove (relAdd rel id r [(x, s)]) id r [x]) id r) x =
      Option.none := by
  constructor
  · simp only [navRelation, relGet, relAdd, alistGet_set_self, Option.getD_some,
      membersAddAll]
    exact memberScore_upsert_self _ _ _
  · simp only [navRelation, relGet, relRemove, alistGet_set_self, Option.getD_some]
    exact alistGet_filter_none _ _ _ (fun v => by simp [membersRemoveAll])

/-! ## Domain store state

Blocks are keyed by `label:id`; since the label set is fixed and the
two parts of the key never collide, the embedding keeps one map per
label (users, schools, classrooms, students) keyed by the raw id, and
relation sources and members as structured `(label, id)` pairs.  Only
the attributes the managers branch on are tracked (`role`, `schoolId`,
`classroomId`); free-text attributes and timestamps never influence
control flow and are left out of the model. -/

structure UserB where
  role : Option String := Option.none
deriving DecidableEq

structure CBlock where
  schoolId : Option String := Option.none
deriving DecidableEq

structure SBlock where
  schoolId : Option String := Option.none
  classroomId : Option String := Option.none
deriving DecidableEq

structure Store where
  users : List (String × UserB) := []
  schools : List String := []
  classrooms : List (String × CBlock) := []
  students : List (String × SBlock) := []
  rels : Rel (String × String) (String × String) := []
deriving DecidableEq

/-- Entity-store write calls (`add_block`, `update_block`,
`delete_block`, `update_relations`, `delete_relations`), recorded at
each call site so that theorems can speak about which writes an
operation performs. -/
inductive WriteOp : Type where
  | addBlock (label id : String)
  | updateBlock (label id : String)
  | deleteBlock (label id : String)
  | updateRels (label id : String)
  | deleteRels (label id : String)
deriving DecidableEq

/-- Query record passed by the managers to `shark.isGranted`. -/
structure GrantQuery where
  layer : String
  action : String
  userId : String
  nodeId : String
  role : String
deriving DecidableEq

inductive PermFail : Type where
  | invalidToken
  | roleMissing
  | denied
deriving DecidableEq

def permMsg : PermFail → String
  | .invalidToken => "Invalid Token"
  | .roleMissing => "User role not found"
  | .denied => "Permission denied"

/-- Translation of the `_validatePermission` helper shared by the
shark-based managers: fetch the user block, fail with `Invalid Token`
when it is absent, with `User role not found` when it has no role, and
otherwise consult `shark.isGranted` with the manager layer, requested
action and node. -/
def validatePermission (shark : GrantQuery → Bool) (st : Store)
    (layer userId action nodeId : String) : Option PermFail :=
  match alistGet st.users userId with
  | Option.none => some .invalidToken
  | some u =>
    match u.role with
    | Option.none => some .roleMissing
    | some r =>
      if shark ⟨layer, action, userId, nodeId, r⟩ then Option.none else some .denied

inductive Res : Type where
  | ok (msg : String)
  | payload (label id : String)
  | err (msg : String)
  | dispatched (code : Nat) (msg : String)
  | invalid
deriving DecidableEq

structure Out where
  res : Res
  store : Store
  writes : List WriteOp
deriving DecidableEq

def navLabel (r : Rel (String × String) (String × String)) (src : String × String)
    (name lab : String) : Members (String × String) :=
  (relGet r src name).filter fun m => decide (m.1.1 = lab)

/-! ## Classroom manager

Translated from the `ClassroomManager` class that the test suite
exercises (the variant with `addStudent` / `removeStudent` and the
member-based deletion constraint; its `_validatePermission` uses layer
and default node `board.school.class`).  Each operation is parametrized
by the injected `shark` decision function and, where the source calls a
validator or `nanoid`, by the validation outcome and the fresh id. -/

namespace ClassroomM

def createClassroom (shark : GrantQuery → Bool) (valid : Bool) (newId : String)
    (st : Store) (userId schoolId : String) : Out :=
  match validatePermission shark st "board.school.class" userId "create" "board.school.class" with
  | some f => ⟨.err (permMsg f), st, []⟩
  | Option.none =>
    if schoolId ∈ st.schools then
      if valid then
        match alistGet st.classrooms newId with
        | some _ => ⟨.dispatched 409 "Classroom already exists", st, [.addBlock "classroom" newId]⟩
        | Option.none =>
          ⟨.payload "classroom" newId,
           { st with
              classrooms := alistSet st.classrooms newId { schoolId := some schoolId },
              rels := relAdd st.rels ("school", schoolId) "_members" [(("classroom", newId), 1)] },
           [.addBlock "classroom" newId, .updateRels "school" schoolId]⟩
      else ⟨.invalid, st, []⟩
    else ⟨.err "School not found", st, []⟩

def updateClassroom (shark : GrantQuery → Bool) (valid : Bool) (st : Store)
    (userId id : String) : Out :=
  match alistGet st.classrooms id with
  | Option.none => ⟨.dispatched 404 "Classroom not found", st, []⟩
  | some c =>
    match validatePermission shark st "board.school.class" userId "update" "board.school.class" with
    | some f => ⟨.dispatched 403 (permMsg f), st, []⟩
    | Option.none =>
      if valid then
        ⟨.payload "classroom" id,
         { st with classrooms := alistSet st.classrooms id c },
         [.updateBlock "classroom" id]⟩
      else ⟨.invalid, st, []⟩

def deleteClassroom (shark : GrantQuery → Bool) (st : Store) (userId id : String) : Out :=
  match alistGet st.classrooms id with
  | Option.none => ⟨.dispatched 404 "Classroom not found", st, []⟩
  | some c =>
    match validatePermission shark st "board.school.class" userId "delete" "board.school.class" with
    | some f => ⟨.dispatched 403 (permMsg f), st, []⟩
    | Option.none =>
      if navLabel st.rels ("classroom", id) "_members" "student" = [] then
        ⟨.ok "Classroom deleted successfully",
         { st with
            classrooms := st.classrooms.filter fun p => decide (p.1 ≠ id),
            rels := relRemove st.rels ("school", c.schoolId.getD "undefined") "_members"
              [("classroom", id)] },
         [.deleteBlock "classroom" id,
          .updateRels "school" (c.schoolId.getD "undefined")]⟩
      else ⟨.err "Cannot delete classroom with existing students", st, []⟩

def getClassroom (shark : GrantQuery → Bool) (st : Store) (userId id : String) : Out :=
  match alistGet st.classrooms id with
  | Option.none => ⟨.dispatched 404 "Classroom not found", st, []⟩
  | some _ =>
    match validatePermission shark st "board.school.class" userId "read" "board.school.class" with
    | some f => ⟨.dispatched 403 (permMsg f), st, []⟩
    | Option.none => ⟨.payload "classroom" id, st, []⟩

def addStudent (shark : GrantQuery → Bool) (st : Store) (userId id studentId : String) : Out :=
  match alistGet st.classrooms id with
  | Option.none => ⟨.dispatched 404 "Classroom not found", st, []⟩
  | some c =>
    match validatePermission shark st "board.school.class" userId "update" "board.school.class" with
    | some f => ⟨.dispatched 403 (permMsg f), st, []⟩
    | Option.none =>
      match alistGet st.students studentId with
      | Option.none => ⟨.dispatched 404 "Student not found", st, []⟩
      | some s =>
        if s.schoolId ≠ c.schoolId then
          ⟨.dispatched 400 "Cannot add student from a different school", st, []⟩
        else if s.classroomId.isSome then
          ⟨.dispatched 400 "Student is already assigned to a classroom", st, []⟩
        else
          ⟨.ok "Student added to classroom successfully",
           { st with
              students := alistSet st.students studentId { s with classroomId := some id },
              rels := relAdd st.rels ("classroom", id) "_members" [(("student", studentId), 1)] },
           [.updateBlock "student" studentId, .updateRels "classroom" id]⟩

def removeStudent (shark : GrantQuery → Bool) (st : Store) (userId id studentId : String) : Out :=
  match alistGet st.classrooms id with
  | Option.none => ⟨.dispatched 404 "Classroom not found", st, []⟩
  | some _ =>
    match validatePermission shark st "board.school.class" userId "update" "board.school.class" with
    | some f => ⟨.dispatched 403 (permMsg f), st, []⟩
    | Option.none =>
      match alistGet st.students studentId with
      | Option.none => ⟨.dispatched 404 "Student not found", st, []⟩
      | some s =>
        if s.classroomId ≠ some id then
          ⟨.dispatched 400 "Student is not in this classroom", st, []⟩
        else
          ⟨.ok "Student removed from classroom successfully",
           { st with
              students := alistSet st.students studentId { s with classroomId := Option.none },
              rels := relRemove st.rels ("classroom", id) "_members" [("student", studentId)] },
           [.updateBlock "student" studentId, .updateRels "classroom" id]⟩

end ClassroomM

/-- C4: when `deleteClassroom` reaches a classroom whose `_members`
relation still contains at least one student member, the manager
returns the `Cannot delete classroom with existing students` error,
performs no store write (in particular never invokes `delete_block`)
and leaves the store unchanged. -/
theorem deleteClassroom_members_guard (shark : GrantQuery → Bool) (st : Store)
    (userId id : String) (c : CBlock)
    (hc : alistGet st.classrooms id = some c)
    (hp : validatePermission shark st "board.school.class" userId "delete"
      "board.school.class" = Option.none)
    (hm : navLabel st.rels ("classroom", id) "_members" "student" ≠ []) :
    ClassroomM.deleteClassroom shark st userId id =
      ⟨.err "Cannot delete classroom with existing students", st, []⟩ := by
  unfold ClassroomM.deleteClassroom
  rw [hc, hp]
  simp [hm]

/-- Concrete store for the C4 witness: one admin user, one classroom
with one student member in its `_members` relation. -/
def c4store : Store :=
  { users := [("a1", { role := some "schoolAdmin" })],
    classrooms := [("c1", { schoolId := some "s1" })],
    rels := [((("classroom", "c1"), "_members"), [(("student", "st1"), 1)])] }

/-- Witness for C4: a concrete store with one classroom holding one
student member, an all-granting decision function and an admin user. -/
theorem deleteClassroom_members_guard_witness :
    (alistGet c4store.classrooms "c1" = some (CBlock.mk (some "s1"))) ∧
    navLabel c4store.rels ("classroom", "c1") "_members" "student" ≠ [] ∧
    ClassroomM.deleteClassroom (fun _ => true) c4store "a1" "c1" =
      ⟨.err "Cannot delete classroom with existing students", c4store, []⟩ :=
  ⟨by decide, by decide,
   deleteClassroom_members_guard (fun _ => true) c4store "a1" "c1" (CBlock.mk (some "s1"))
     (by decide) (by decide) (by decide)⟩

/-! ## Single-classroom invariant for students -/

/-- Invariant relating the `classroomId` attribute of every student
block to the `_members` relations: a student is a member of exactly the
classroom named by its `classroomId` (hence of at most one classroom). -/
def StudentInv (st : Store) : Prop :=
  ∀ sid s, alistGet st.students sid = some s →
    ∀ cid,
      (alistGet (relGet st.rels ("classroom", cid) "_members")
        ("student", sid)).isSome ↔ s.classroomId = some cid

theorem addStudent_preserves_inv (shark : GrantQuery → Bool) (st : Store)
    (userId id studentId : String) (hinv : StudentInv st) :
    StudentInv (ClassroomM.addStudent shark st userId id studentId).store := by
  unfold ClassroomM.addStudent
  cases hc : alistGet st.classrooms id with
  | none => exact hinv
  | some c =>
    cases hp : validatePermission shark st "board.school.class" userId "update"
        "board.school.class" with
    | some f => exact hinv
    | none =>
      cases hs : alistGet st.students studentId with
      | none => exact hinv
      | some s =>
        dsimp only
        by_cases hsch : s.schoolId ≠ c.schoolId
        · rw [if_pos hsch]; exact hinv
        · rw [if_neg hsch]
          cases hcid : s.classroomId with
          | some c0 => simp only [hcid, Option.isSome_some, if_true]; exact hinv
          | none =>
            simp only [hcid, Option.isSome_none, Bool.false_eq_true, if_false]
            intro sid t ht cid
            by_cases hsid : sid = studentId
            · subst hsid
              rw [alistGet_set_self] at ht
              obtain rfl : ({ s with classroomId := some id } : SBlock) = t :=
                Option.some.inj ht
              by_cases hcid2 : cid = id
              · subst hcid2
                rw [relGet_relAdd_self, membersAddAll_single, memberScore_upsert_self]
                simp
              · rw [relGet_relAdd_ne _ _ _ _ _ _ (by simp [hcid2])]
                have hold := hinv sid s hs cid
                simp only [hcid] at hold
                simp only [hold]
                simp
                exact fun hh => hcid2 hh.symm
            · rw [alistGet_set_ne _ _ _ _ hsid] at ht
              have hold := hinv sid t ht cid
              by_cases hcid2 : cid = id
              · subst hcid2
                rw [relGet_relAdd_self, membersAddAll_single,
                  memberScore_upsert_ne _ _ _ _ (by simp [hsid])]
                exact hold
              · rw [relGet_relAdd_ne _ _ _ _ _ _ (by simp [hcid2])]
                exact hold

theorem removeStudent_preserves_inv (shark : GrantQuery → Bool) (st : Store)
    (userId id studentId : String) (hinv : StudentInv st) :
    StudentInv (ClassroomM.removeStudent shark st userId id studentId).store := by
  unfold ClassroomM.removeStudent
  cases hc : alistGet st.classrooms id with
  | none => exact hinv
  | some c =>
    cases hp : validatePermission shark st "board.school.class" userId "update"
        "board.school.class" with
    | some f => exact hinv
    | none =>
      cases hs : alistGet st.students studentId with
      | none => exact hinv
      | some s =>
        dsimp only
        by_cases hcls : s.classroomId ≠ some id
        · rw [if_pos hcls]; exact hinv
        · rw [if_neg hcls]
          push_neg at hcls
          intro sid t ht cid
          by_cases hsid : sid = studentId
          · subst hsid
            rw [alistGet_set_self] at ht
            obtain rfl : ({ s with classroomId := Option.none } : SBlock) = t :=
              Option.some.inj ht
            by_cases hcid2 : cid = id
            · subst hcid2
              rw [relGet_relRemove_self, memberScore_removeAll_mem _ _ _ (by simp)]
              simp
            · rw [relGet_relRemove_ne _ _ _ _ _ _ (by simp [hcid2])]
              have hold := hinv sid s hs cid
              simp only [hcls] at hold
              simp only [hold]
              simp
              exact fun hh => hcid2 hh.symm
          · rw [alistGet_set_ne _ _ _ _ hsid] at ht
            have hold := hinv sid t ht cid
            by_cases hcid2 : cid = id
            · subst hcid2
              rw [relGet_relRemove_self,
                memberScore_removeAll_notMem _ _ _ (by simp [hsid])]
              exact hold
            · rw [relGet_relRemove_ne _ _ _ _ _ _ (by simp [hcid2])]
              exact hold

/-- C9: a student belongs to at most one classroom at a time:
`addStudent` rejects a student whose `classroomId` is already set,
without any store write; on success it sets the student blocks
`classroomId` and adds the membership with score 1; `removeStudent`
clears the attribute and the membership; and both operations preserve
the invariant that every student block is a member of exactly the
classroom named by its `classroomId`. -/
theorem student_single_classroom :
    (∀ (shark : GrantQuery → Bool) (st : Store) (userId id studentId : String)
       (c : CBlock) (s : SBlock),
       alistGet st.classrooms id = some c →
       validatePermission shark st "board.school.class" userId "update"
         "board.school.class" = Option.none →
       alistGet st.students studentId = some s →
       s.schoolId = c.schoolId →
       s.classroomId.isSome →
       ClassroomM.addStudent shark st userId id studentId =
         ⟨.dispatched 400 "Student is already assigned to a classroom", st, []⟩) ∧
    (∀ (shark : GrantQuery → Bool) (st : Store) (userId id studentId : String)
       (c : CBlock) (s : SBlock),
       alistGet st.classrooms id = some c →
       validatePermission shark st "board.school.class" userId "update"
         "board.school.class" = Option.none →
       alistGet st.students studentId = some s →
       s.schoolId = c.schoolId →
       s.classroomId = Option.none →
       alistGet (ClassroomM.addStudent shark st userId id studentId).store.students
           studentId = some { s with classroomId := some id } ∧
       alistGet (relGet (ClassroomM.addStudent shark st userId id studentId).store.rels
           ("classroom", id) "_members") ("student", studentId) = some 1) ∧
    (∀ (shark : GrantQuery → Bool) (st : Store) (userId id studentId : String)
       (c : CBlock) (s : SBlock),
       alistGet st.classrooms id = some c →
       validatePermission shark st "board.school.class" userId "update"
         "board.school.class" = Option.none →
       alistGet st.students studentId = some s →
       s.classroomId = some id →
       alistGet (ClassroomM.removeStudent shark st userId id studentId).store.students
           studentId = some { s with classroomId := Option.none } ∧
       alistGet (relGet (ClassroomM.removeStudent shark st userId id studentId).store.rels
           ("classroom", id) "_members") ("student", studentId) = Option.none) ∧
    (∀ (shark : GrantQuery → Bool) (st : Store) (userId id studentId : String),
       StudentInv st →
       StudentInv (ClassroomM.addStudent shark st userId id studentId).store ∧
       StudentInv (ClassroomM.removeStudent shark st userId id studentId).store) := by
  refine ⟨?_, ?_, ?_, fun shark st userId id studentId hinv =>
    ⟨addStudent_preserves_inv shark st userId id studentId hinv,
     removeStudent_preserves_inv shark st userId id studentId hinv⟩⟩
  · intro shark st userId id studentId c s hc hp hs hsch hasg
    unfold ClassroomM.addStudent
    rw [hc, hp, hs]
    dsimp only
    rw [if_neg (fun hh => hh hsch), if_pos hasg]
  · intro shark st userId id studentId c s hc hp hs hsch hcid
    unfold ClassroomM.addStudent
    rw [hc, hp, hs]
    dsimp only
    rw [if_neg (fun hh => hh hsch)]
    simp only [hcid, Option.isSome_none, Bool.false_eq_true, if_false]
    refine ⟨alistGet_set_self _ _ _, ?_⟩
    rw [relGet_relAdd_self, membersAddAll_single, memberScore_upsert_self]
  · intro shark st userId id studentId c s hc hp hs hcls
    unfold ClassroomM.removeStudent
    rw [hc, hp, hs]
    dsimp only
    rw [if_neg (fun hh : s.classroomId ≠ some id => hh hcls)]
    refine ⟨alistGet_set_self _ _ _, ?_⟩
    rw [relGet_relRemove_self, memberScore_removeAll_mem _ _ _ (by simp)]

/-- Concrete stores for the C9 witness: one admin user, one classroom
`c1` of school `s1`, and a student `st1` that is respectively already
assigned elsewhere, unassigned, and a member of `c1`. -/
def c9storeA : Store :=
  { users := [("a1", { role := some "schoolAdmin" })],
    classrooms := [("c1", { schoolId := some "s1" })],
    students := [("st1", { schoolId := some "s1", classroomId := some "c0" })] }

def c9storeB : Store :=
  { users := [("a1", { role := some "schoolAdmin" })],
    classrooms := [("c1", { schoolId := some "s1" })],
    students := [("st1", { schoolId := some "s1", classroomId := Option.none })] }

def c9storeC : Store :=
  { users := [("a1", { role := some "schoolAdmin" })],
    classrooms := [("c1", { schoolId := some "s1" })],
    students := [("st1", { schoolId := some "s1", classroomId := some "c1" })],
    rels := [((("classroom", "c1"), "_members"), [(("student", "st1"), 1)])] }

/-- Witness for C9 on the concrete stores. -/
theorem student_single_classroom_witness :
    ClassroomM.addStudent (fun _ => true) c9storeA "a1" "c1" "st1" =
      ⟨.dispatched 400 "Student is already assigned to a classroom", c9storeA, []⟩ ∧
    alistGet (ClassroomM.addStudent (fun _ => true) c9storeB "a1" "c1" "st1").store.students
      "st1" = some (SBlock.mk (some "s1") (some "c1")) ∧
    alistGet (relGet (ClassroomM.addStudent (fun _ => true) c9storeB "a1" "c1" "st1").store.rels
      ("classroom", "c1") "_members") ("student", "st1") = some 1 ∧
    alistGet (ClassroomM.removeStudent (fun _ => true) c9storeC "a1" "c1" "st1").store.students
      "st1" = some (SBlock.mk (some "s1") Option.none) ∧
    alistGet (relGet (ClassroomM.removeStudent (fun _ => true) c9storeC "a1" "c1" "st1").store.rels
      ("classroom", "c1") "_members") ("student", "st1") = Option.none ∧
    StudentInv (ClassroomM.addStudent (fun _ => true) ({} : Store) "a1" "c1" "st1").store :=
  ⟨student_single_classroom.1 (fun _ => true) c9storeA "a1" "c1" "st1"
     (CBlock.mk (some "s1")) (SBlock.mk (some "s1") (some "c0"))
     (by decide) (by decide) (by decide) (by decide) (by decide),
   (student_single_classroom.2.1 (fun _ => true) c9storeB "a1" "c1" "st1"
     (CBlock.mk (some "s1")) (SBlock.mk (some "s1") Option.none)
     (by decide) (by decide) (by decide) (by decide) (by decide)).1,
   (student_single_classroom.2.1 (fun _ => true) c9storeB "a1" "c1" "st1"
     (CBlock.mk (some "s1")) (SBlock.mk (some "s1") Option.none)
     (by decide) (by decide) (by decide) (by decide) (by decide)).2,
   (student_single_classroom.2.2.1 (fun _ => true) c9storeC "a1" "c1" "st1"
     (CBlock.mk (some "s1")) (SBlock.mk (some "s1") (some "c1"))
     (by decide) (by decide) (by decide) (by decide)).1,
   (student_single_classroom.2.2.1 (fun _ => true) c9storeC "a1" "c1" "st1"
     (CBlock.mk (some "s1")) (SBlock.mk (some "s1") (some "c1"))
     (by decide) (by decide) (by decide) (by decide)).2,
   (student_single_classroom.2.2.2 (fun _ => true) ({} : Store) "a1" "c1" "st1"
     (by intro sid s h cid; simp [alistGet] at h)).1⟩

/-! ## School manager

Translated from the shark-based `SchoolManager` (the variant using
`_validatePermission` over layer `board.school` and per-school node
ids).  Schools are keyed by email; the only attributes a manager
branches on are presence, so the school map tracks ids.  `update_block`
merges attributes that the model does not track, so the merged block
equals the stored one here; the write call is still recorded. -/

namespace SchoolM

def createSchool (shark : GrantQuery → Bool) (valid : Bool) (st : Store)
    (userId email : String) : Out :=
  match validatePermission shark st "board.school" userId "create" "board.school" with
  | some f => ⟨.dispatched 403 (permMsg f), st, []⟩
  | Option.none =>
    if valid then
      if email ∈ st.schools then
        ⟨.dispatched 409 "School already exists with this email", st, []⟩
      else
        ⟨.payload "school" email, { st with schools := email :: st.schools },
         [.addBlock "school" email]⟩
    else ⟨.invalid, st, []⟩

def updateSchool (shark : GrantQuery → Bool) (valid : Bool) (st : Store)
    (userId id : String) : Out :=
  match validatePermission shark st "board.school" userId "update"
      ("board.school." ++ id) with
  | some f => ⟨.dispatched 403 (permMsg f), st, []⟩
  | Option.none =>
    if valid then
      if id ∈ st.schools then ⟨.payload "school" id, st, [.updateBlock "school" id]⟩
      else ⟨.dispatched 404 "School not found", st, []⟩
    else ⟨.invalid, st, []⟩

def deleteSchool (shark : GrantQuery → Bool) (st : Store) (userId id : String) : Out :=
  match validatePermission shark st "board.school" userId "delete"
      ("board.school." ++ id) with
  | some f => ⟨.dispatched 403 (permMsg f), st, []⟩
  | Option.none =>
    if id ∈ st.schools then
      ⟨.ok "School deleted successfully",
       { st with
          schools := st.schools.filter fun x => decide (x ≠ id),
          rels := st.rels.filter fun e => decide (e.1.1 ≠ ("school", id)) },
       [.deleteBlock "school" id, .deleteRels "school" id]⟩
    else ⟨.dispatched 404 "School not found", st, []⟩

def getSchool (shark : GrantQuery → Bool) (st : Store) (userId id : String) : Out :=
  match validatePermission shark st "board.school" userId "read"
      ("board.school." ++ id) with
  | some f => ⟨.dispatched 403 (permMsg f), st, []⟩
  | Option.none =>
    if id ∈ st.schools then ⟨.payload "school" id, st, []⟩
    else ⟨.dispatched 404 "School not found", st, []⟩

end SchoolM

/-! ## Student manager

Translated from `Student.manager.js` (`_validatePermission` over layer
`board.student`, per-school and per-student node ids, `_students`
relations on the classroom and the school).  Relation members added
without an explicit score take the stores default score, which no
claim depends on; score 1 is used in the model. -/

namespace StudentM

def createStudent (shark : GrantQuery → Bool) (valid : Bool) (st : Store)
    (userId email schoolId : String) (classroomId : Option String) : Out :=
  match validatePermission shark st "board.student" userId "create"
      ("board.school." ++ schoolId ++ ".student") with
  | some f => ⟨.dispatched 403 (permMsg f), st, []⟩
  | Option.none =>
    if valid then
      match alistGet st.students email with
      | some _ => ⟨.dispatched 409 "Student already exists with this email", st, []⟩
      | Option.none =>
        ⟨.payload "student" email,
         { st with
            students := alistSet st.students email ⟨some schoolId, classroomId⟩,
            rels := relAdd
              (relAdd st.rels ("classroom", classroomId.getD "null") "_students"
                [(("student", email), 1)])
              ("school", schoolId) "_students" [(("student", email), 1)] },
         [.addBlock "student" email, .updateRels "classroom" (classroomId.getD "null"),
          .updateRels "school" schoolId]⟩
    else ⟨.invalid, st, []⟩

def updateStudent (shark : GrantQuery → Bool) (valid : Bool) (st : Store)
    (userId id : String) : Out :=
  match alistGet st.students id with
  | Option.none => ⟨.dispatched 404 "Student not found", st, []⟩
  | some s =>
    match validatePermission shark st "board.student" userId "update"
        ("board.school." ++ s.schoolId.getD "undefined" ++ ".student." ++ id) with
    | some f => ⟨.dispatched 403 (permMsg f), st, []⟩
    | Option.none =>
      if valid then
        ⟨.payload "student" id, { st with students := alistSet st.students id s },
         [.updateBlock "student" id]⟩
      else ⟨.invalid, st, []⟩

def deleteStudent (shark : GrantQuery → Bool) (st : Store) (userId id : String) : Out :=
  match alistGet st.students id with
  | Option.none => ⟨.dispatched 404 "Student not found", st, []⟩
  | some s =>
    match validatePermission shark st "board.student" userId "delete"
        ("board.school." ++ s.schoolId.getD "undefined" ++ ".student." ++ id) with
    | some f => ⟨.dispatched 403 (permMsg f), st, []⟩
    | Option.none =>
      ⟨.ok "Student deleted successfully",
       { st with
          students := st.students.filter fun p => decide (p.1 ≠ id),
          rels := relRemove
            (relRemove st.rels ("classroom", s.classroomId.getD "undefined") "_students"
              [("student", id)])
            ("school", s.schoolId.getD "undefined") "_students" [("student", id)] },
       [.deleteBlock "student" id,
        .updateRels "classroom" (s.classroomId.getD "undefined"),
        .updateRels "school" (s.schoolId.getD "undefined")]⟩

def getStudent (shark : GrantQuery → Bool) (st : Store) (userId id : String) : Out :=
  match alistGet st.students id with
  | Option.none => ⟨.dispatched 404 "Student not found", st, []⟩
  | some s =>
    match validatePermission shark st "board.student" userId "read"
        ("board.school." ++ s.schoolId.getD "undefined" ++ ".student." ++ id) with
    | some f => ⟨.dispatched 403 (permMsg f), st, []⟩
    | Option.none => ⟨.payload "student" id, st, []⟩

end StudentM

/-! ## Role-gated school manager

Translated from `School.manager.js`, whose `createSchool` gates on the
callers role string instead of calling the authorization engine. -/

namespace SchoolRoleM

def createSchool (valid : Bool) (st : Store) (role email : String) : Out :=
  if role ≠ "superadmin" then
    ⟨.dispatched 403 "Only superadmin can create schools", st, []⟩
  else if valid then
    if email ∈ st.schools then
      ⟨.dispatched 409 "School already exists with this email", st, []⟩
    else
      ⟨.payload "school" email, { st with schools := email :: st.schools },
       [.addBlock "school" email]⟩
  else ⟨.invalid, st, []⟩

end SchoolRoleM

/-! ## Name-keyed classroom manager

Translated from `Classroom.manager.js` `createClassroom` (classrooms
keyed by name, `_classrooms` relation on the school). -/

namespace ClassroomNamedM

def createClassroom (shark : GrantQuery → Bool) (valid : Bool) (st : Store)
    (userId name schoolId : String) : Out :=
  match validatePermission shark st "board.school.class" userId "create"
      ("board.school." ++ schoolId ++ ".classroom") with
  | some f => ⟨.dispatched 403 (permMsg f), st, []⟩
  | Option.none =>
    if valid then
      match alistGet st.classrooms name with
      | some _ => ⟨.dispatched 409 "Classroom already exists with this name", st, []⟩
      | Option.none =>
        ⟨.payload "classroom" name,
         { st with
            classrooms := alistSet st.classrooms name ⟨some schoolId⟩,
            rels := relAdd st.rels ("school", schoolId) "_classrooms"
              [(("classroom", name), 1)] },
         [.addBlock "classroom" name, .updateRels "school" schoolId]⟩
    else ⟨.invalid, st, []⟩

end ClassroomNamedM

theorem validatePermission_ne_none (shark : GrantQuery → Bool) (st : Store)
    (layer userId action nodeId : String) (hs : ∀ q, shark q = false) :
    validatePermission shark st layer userId action nodeId ≠ Option.none := by
  unfold validatePermission
  cases alistGet st.users userId with
  | none => simp
  | some u =>
    cases hur : u.role with
    | none => simp [hur]
    | some r => simp [hur, hs]

theorem validatePermission_denied (shark : GrantQuery → Bool) (st : Store)
    (layer userId action nodeId : String) (u : UserB) (r : String)
    (hs : ∀ q, shark q = false)
    (hu : alistGet st.users userId = some u) (hr : u.role = some r) :
    validatePermission shark st layer userId action nodeId = some .denied := by
  simp [validatePermission, hu, hr, hs]

/-- C5: under a denying authorization decision, every embedded domain
manager operation performs no entity-store write, and, whenever the
requesting user exists with a role (and the operations preliminary
fetch succeeds, for the operations that fetch before checking), the
operation returns its permission-denial result with an unchanged
store.  Store writes therefore only happen after `isGranted` returns
true; the role-gated `createSchool` variant likewise writes nothing
when the caller is not a superadmin. -/
theorem permission_gate :
    (∀ (shark : GrantQuery → Bool) (valid : Bool) (st : Store) (userId email : String),
      (∀ q, shark q = false) →
      (SchoolM.createSchool shark valid st userId email).writes = [] ∧
      ∀ u r, alistGet st.users userId = some u → u.role = some r →
        SchoolM.createSchool shark valid st userId email =
          ⟨.dispatched 403 "Permission denied", st, []⟩) ∧
    (∀ (shark : GrantQuery → Bool) (valid : Bool) (st : Store) (userId id : String),
      (∀ q, shark q = false) →
      (SchoolM.updateSchool shark valid st userId id).writes = [] ∧
      ∀ u r, alistGet st.users userId = some u → u.role = some r →
        SchoolM.updateSchool shark valid st userId id =
          ⟨.dispatched 403 "Permission denied", st, []⟩) ∧
    (∀ (shark : GrantQuery → Bool) (st : Store) (userId id : String),
      (∀ q, shark q = false) →
      (SchoolM.deleteSchool shark st userId id).writes = [] ∧
      ∀ u r, alistGet st.users userId = some u → u.role = some r →
        SchoolM.deleteSchool shark st userId id =
          ⟨.dispatched 403 "Permission denied", st, []⟩) ∧
    (∀ (shark : GrantQuery → Bool) (st : Store) (userId id : String),
      (∀ q, shark q = false) →
      (SchoolM.getSchool shark st userId id).writes = [] ∧
      ∀ u r, alistGet st.users userId = some u → u.role = some r →
        SchoolM.getSchool shark st userId id =
          ⟨.dispatched 403 "Permission denied", st, []⟩) ∧
    (∀ (shark : GrantQuery → Bool) (valid : Bool) (newId : String) (st : Store)
       (userId schoolId : String),
      (∀ q, shark q = false) →
      (ClassroomM.createClassroom shark valid newId st userId schoolId).writes = [] ∧
      ∀ u r, alistGet st.users userId = some u → u.role = some r →
        ClassroomM.createClassroom shark valid newId st userId schoolId =
          ⟨.err "Permission denied", st, []⟩) ∧
    (∀ (shark : GrantQuery → Bool) (valid : Bool) (st : Store) (userId id : String),
      (∀ q, shark q = false) →
      (ClassroomM.updateClassroom shark valid st userId id).writes = [] ∧
      ∀ c u r, alistGet st.classrooms id = some c →
        alistGet st.users userId = some u → u.role = some r →
        ClassroomM.updateClassroom shark valid st userId id =
          ⟨.dispatched 403 "Permission denied", st, []⟩) ∧
    (∀ (shark : GrantQuery → Bool) (st : Store) (userId id : String),
      (∀ q, shark q = false) →
      (ClassroomM.deleteClassroom shark st userId id).writes = [] ∧
      ∀ c u r, alistGet st.classrooms id = some c →
        alistGet st.users userId = some u → u.role = some r →
        ClassroomM.deleteClassroom shark st userId id =
          ⟨.dispatched 403 "Permission denied", st, []⟩) ∧
    (∀ (shark : GrantQuery → Bool) (st : Store) (userId id : String),
      (∀ q, shark q = false) →
      (ClassroomM.getClassroom shark st userId id).writes = [] ∧
      ∀ c u r, alistGet st.classrooms id = some c →
        alistGet st.users userId = some u → u.role = some r →
        ClassroomM.getClassroom shark st userId id =
          ⟨.dispatched 403 "Permission denied", st, []⟩) ∧
    (∀ (shark : GrantQuery → Bool) (st : Store) (userId id studentId : String),
      (∀ q, shark q = false) →
      (ClassroomM.addStudent shark st userId id studentId).writes = [] ∧
      ∀ c u r, alistGet st.classrooms id = some c →
        alistGet st.users userId = some u → u.role = some r →
        ClassroomM.addStudent shark st userId id studentId =
          ⟨.dispatched 403 "Permission denied", st, []⟩) ∧
    (∀ (shark : GrantQuery → Bool) (st : Store) (userId id studentId : String),
      (∀ q, shark q = false) →
      (ClassroomM.removeStudent shark st userId id studentId).writes = [] ∧
      ∀ c u r, alistGet st.classrooms id = some c →
        alistGet st.users userId = some u → u.role = some r →
        ClassroomM.removeStudent shark st userId id studentId =
          ⟨.dispatched 403 "Permission denied", st, []⟩) ∧
    (∀ (shark : GrantQuery → Bool) (valid : Bool) (st : Store)
       (userId email schoolId : String) (classroomId : Option String),
      (∀ q, shark q = false) →
      (StudentM.createStudent shark valid st userId email schoolId classroomId).writes = [] ∧
      ∀ u r, alistGet st.users userId = some u → u.role = some r →
        StudentM.createStudent shark valid st userId email schoolId classroomId =
          ⟨.dispatched 403 "Permission denied", st, []⟩) ∧
    (∀ (shark : GrantQuery → Bool) (valid : Bool) (st : Store) (userId id : String),
      (∀ q, shark q = false) →
      (StudentM.updateStudent shark valid st userId id).writes = [] ∧
      ∀ s u r, alistGet st.students id = some s →
        alistGet st.users userId = some u → u.role = some r →
        StudentM.updateStudent shark valid st userId id =
          ⟨.dispatched 403 "Permission denied", st, []⟩) ∧
    (∀ (shark : GrantQuery → Bool) (st : Store) (userId id : String),
      (∀ q, shark q = false) →
      (StudentM.deleteStudent shark st userId id).writes = [] ∧
      ∀ s u r, alistGet st.students id = some s →
        alistGet st.users userId = some u → u.role = some r →
        StudentM.deleteStudent shark st userId id =
          ⟨.dispatched 403 "Permission denied", st, []⟩) ∧
    (∀ (shark : GrantQuery → Bool) (st : Store) (userId id : String),
      (∀ q, shark q = false) →
      (StudentM.getStudent shark st userId id).writes = [] ∧
      ∀ s u r, alistGet st.students id = some s →
        alistGet st.users userId = some u → u.role = some r →
        StudentM.getStudent shark st userId id =
          ⟨.dispatched 403 "Permission denied", st, []⟩) ∧
    (∀ (valid : Bool) (st : Store) (role email : String),
      role ≠ "superadmin" →
      SchoolRoleM.createSchool valid st role email =
        ⟨.dispatched 403 "Only superadmin can create schools", st, []⟩) ∧
    (∀ (shark : GrantQuery → Bool) (valid : Bool) (st : Store)
       (userId name schoolId : String),
      (∀ q, shark q = false) →
      (ClassroomNamedM.createClassroom shark valid st userId name schoolId).writes = [] ∧
      ∀ u r, alistGet st.users userId = some u → u.role = some r →
        ClassroomNamedM.createClassroom shark valid st userId name schoolId =
          ⟨.dispatched 403 "Permission denied", st, []⟩) := by
  refine ⟨?_, ?_, ?_, ?_, ?_, ?_, ?_, ?_, ?_, ?_, ?_, ?_, ?_, ?_, ?_, ?_⟩
  · intro shark valid st userId email hs
    refine ⟨?_, fun u r hu hr => ?_⟩
    · unfold SchoolM.createSchool
      cases hv : validatePermission shark st "board.school" userId "create" "board.school" with
      | some f => rfl
      | none => exact absurd hv (validatePermission_ne_none _ _ _ _ _ _ hs)
    · unfold SchoolM.createSchool
      rw [validatePermission_denied _ _ _ _ _ _ u r hs hu hr]
      rfl
  · intro shark valid st userId id hs
    refine ⟨?_, fun u r hu hr => ?_⟩
    · unfold SchoolM.updateSchool
      cases hv : validatePermission shark st "board.school" userId "update"
          ("board.school." ++ id) with
      | some f => rfl
      | none => exact absurd hv (validatePermission_ne_none _ _ _ _ _ _ hs)
    · unfold SchoolM.updateSchool
      rw [validatePermission_denied _ _ _ _ _ _ u r hs hu hr]
      rfl
  · intro shark st userId id hs
    refine ⟨?_, fun u r hu hr => ?_⟩
    · unfold SchoolM.deleteSchool
      cases hv : validatePermission shark st "board.school" userId "delete"
          ("board.school." ++ id) with
      | some f => rfl
      | none => exact absurd hv (validatePermission_ne_none _ _ _ _ _ _ hs)
    · unfold SchoolM.deleteSchool
      rw [validatePermission_denied _ _ _ _ _ _ u r hs hu hr]
      rfl
  · intro shark st userId id hs
    refine ⟨?_, fun u r hu hr => ?_⟩
    · unfold SchoolM.getSchool
      cases hv : validatePermission shark st "board.school" userId "read"
          ("board.school." ++ id) with
      | some f => rfl
      | none => exact absurd hv (validatePermission_ne_none _ _ _ _ _ _ hs)
    · unfold SchoolM.getSchool
      rw [validatePermission_denied _ _ _ _ _ _ u r hs hu hr]
      rfl
  · intro shark valid newId st userId schoolId hs
    refine ⟨?_, fun u r hu hr => ?_⟩
    · unfold ClassroomM.createClassroom
      cases hv : validatePermission shark st "board.school.class" userId "create"
          "board.school.class" with
      | some f => rfl
      | none => exact absurd hv (validatePermission_ne_none _ _ _ _ _ _ hs)
    · unfold ClassroomM.createClassroom
      rw [validatePermission_denied _ _ _ _ _ _ u r hs hu hr]
      rfl
  · intro shark valid st userId id hs
    refine ⟨?_, fun c u r hc hu hr => ?_⟩
    · unfold ClassroomM.updateClassroom
      cases hcl : alistGet st.classrooms id with
      | none => rfl
      | some c =>
        cases hv : validatePermission shark st "board.school.class" userId "update"
            "board.school.class" with
        | some f => rfl
        | none => exact absurd hv (validatePermission_ne_none _ _ _ _ _ _ hs)
    · unfold ClassroomM.updateClassroom
      rw [hc, validatePermission_denied _ _ _ _ _ _ u r hs hu hr]
      rfl
  · intro shark st userId id hs
    refine ⟨?_, fun c u r hc hu hr => ?_⟩
    · unfold ClassroomM.deleteClassroom
      cases hcl : alistGet st.classrooms id with
      | none => rfl
      | some c =>
        cases hv : validatePermission shark st "board.school.class" userId "delete"
            "board.school.class" with
        | some f => rfl
        | none => exact absurd hv (validatePermission_ne_none _ _ _ _ _ _ hs)
    · unfold ClassroomM.deleteClassroom
      rw [hc, validatePermission_denied _ _ _ _ _ _ u r hs hu hr]
      rfl
  · intro shark st userId id hs
    refine ⟨?_, fun c u r hc hu hr => ?_⟩
    · unfold ClassroomM.getClassroom
      cases hcl : alistGet st.classrooms id with
      | none => rfl
      | some c =>
        cases hv : validatePermission shark st "board.school.class" userId "read"
            "board.school.class" with
        | some f => rfl
        | none => exact absurd hv (validatePermission_ne_none _ _ _ _ _ _ hs)
    · unfold ClassroomM.getClassroom
      rw [hc, validatePermission_denied _ _ _ _ _ _ u r hs hu hr]
      rfl
  · intro shark st userId id studentId hs
    refine ⟨?_, fun c u r hc hu hr => ?_⟩
    · unfold ClassroomM.addStudent
      cases hcl : alistGet st.classrooms id with
      | none => rfl
      | some c =>
        cases hv : validatePermission shark st "board.school.class" userId "update"
            "board.school.class" with
        | some f => rfl
        | none => exact absurd hv (validatePermission_ne_none _ _ _ _ _ _ hs)
    · unfold ClassroomM.addStudent
      rw [hc, validatePermission_denied _ _ _ _ _ _ u r hs hu hr]
      rfl
  · intro shark st userId id studentId hs
    refine ⟨?_, fun c u r hc hu hr => ?_⟩
    · unfold ClassroomM.removeStudent
      cases hcl : alistGet st.classrooms id with
      | none => rfl
      | some c =>
        cases hv : validatePermission shark st "board.school.class" userId "update"
            "board.school.class" with
        | some f => rfl
        | none => exact absurd hv (validatePermission_ne_none _ _ _ _ _ _ hs)
    · unfold ClassroomM.removeStudent
      rw [hc, validatePermission_denied _ _ _ _ _ _ u r hs hu hr]
      rfl
  · intro shark valid st userId email schoolId classroomId hs
    refine ⟨?_, fun u r hu hr => ?_⟩
    · unfold StudentM.createStudent
      cases hv : validatePermission shark st "board.student" userId "create"
          ("board.school." ++ schoolId ++ ".student") with
      | some f => rfl
      | none => exact absurd hv (validatePermission_ne_none _ _ _ _ _ _ hs)
    · unfold StudentM.createStudent
      rw [validatePermission_denied _ _ _ _ _ _ u r hs hu hr]
      rfl
  · intro shark valid st userId id hs
    refine ⟨?_, fun s u r hst hu hr => ?_⟩
    · unfold StudentM.updateStudent
      cases hsl : alistGet st.students id with
      | none => rfl
      | some s =>
        dsimp only
        cases hv : validatePermission shark st "board.student" userId "update"
            ("board.school." ++ s.schoolId.getD "undefined" ++ ".student." ++ id) with
        | some f => rfl
        | none => exact absurd hv (validatePermission_ne_none _ _ _ _ _ _ hs)
    · unfold StudentM.updateStudent
      rw [hst]
      dsimp only
      rw [validatePermission_denied _ _ _ _ _ _ u r hs hu hr]
      rfl
  · intro shark st userId id hs
    refine ⟨?_, fun s u r hst hu hr => ?_⟩
    · unfold StudentM.deleteStudent
      cases hsl : alistGet st.students id with
      | none => rfl
      | some s =>
        dsimp only
        cases hv : validatePermission shark st "board.student" userId "delete"
            ("board.school." ++ s.schoolId.getD "undefined" ++ ".student." ++ id) with
        | some f => rfl
        | none => exact absurd hv (validatePermission_ne_none _ _ _ _ _ _ hs)
    · unfold StudentM.deleteStudent
      rw [hst]
      dsimp only
      rw [validatePermission_denied _ _ _ _ _ _ u r hs hu hr]
      rfl
  · intro shark st userId id hs
    refine ⟨?_, fun s u r hst hu hr => ?_⟩
    · unfold StudentM.getStudent
      cases hsl : alistGet st.students id with
      | none => rfl
      | some s =>
        dsimp only
        cases hv : validatePermission shark st "board.student" userId "read"
            ("board.school." ++ s.schoolId.getD "undefined" ++ ".student." ++ id) with
        | some f => rfl
        | none => exact absurd hv (validatePermission_ne_none _ _ _ _ _ _ hs)
    · unfold StudentM.getStudent
      rw [hst]
      dsimp only
      rw [validatePermission_denied _ _ _ _ _ _ u r hs hu hr]
      rfl
  · intro valid st role email hrole
    unfold SchoolRoleM.createSchool
    rw [if_pos hrole]
  · intro shark valid st userId name schoolId hs
    refine ⟨?_, fun u r hu hr => ?_⟩
    · unfold ClassroomNamedM.createClassroom
      cases hv : validatePermission shark st "board.school.class" userId "create"
          ("board.school." ++ schoolId ++ ".classroom") with
      | some f => rfl
      | none => exact absurd hv (validatePermission_ne_none _ _ _ _ _ _ hs)
    · unfold ClassroomNamedM.createClassroom
      rw [validatePermission_denied _ _ _ _ _ _ u r hs hu hr]
      rfl

/-- Concrete store for the C5 witness: a plain user and one classroom. -/
def c5store : Store :=
  { users := [("a1", { role := some "user" })],
    classrooms := [("c1", { schoolId := some "s1" })] }

/-- Witness for C5 under the all-denying decision function: school
creation and classroom update deny with no writes, and the role-gated
school creation denies a non-superadmin. -/
theorem permission_gate_witness :
    (SchoolM.createSchool (fun _ => false) true c5store "a1" "sch1").writes = [] ∧
    SchoolM.createSchool (fun _ => false) true c5store "a1" "sch1" =
      ⟨.dispatched 403 "Permission denied", c5store, []⟩ ∧
    ClassroomM.updateClassroom (fun _ => false) true c5store "a1" "c1" =
      ⟨.dispatched 403 "Permission denied", c5store, []⟩ ∧
    SchoolRoleM.createSchool true c5store "user" "sch1" =
      ⟨.dispatched 403 "Only superadmin can create schools", c5store, []⟩ :=
  ⟨(permission_gate.1 (fun _ => false) true c5store "a1" "sch1" (fun q => rfl)).1,
   (permission_gate.1 (fun _ => false) true c5store "a1" "sch1" (fun q => rfl)).2
     (UserB.mk (some "user")) "user" (by decide) (by decide),
   (permission_gate.2.2.2.2.2.1 (fun _ => false) true c5store "a1" "c1" (fun q => rfl)).2
     (CBlock.mk (some "s1")) (UserB.mk (some "user")) "user" (by decide) (by decide)
     (by decide),
   permission_gate.2.2.2.2.2.2.2.2.2.2.2.2.2.2.1 true c5store "user" "sch1" (by decide)⟩

/-! ## User manager

Translated from `User.manager.js`.  User blocks are JS objects whose
attribute set matters (the stored block carries the hashed password
while the returned object is built by rest-destructuring it away), so
they are embedded as association lists of string attributes.  Password
hashing and token generation are external (`bcrypt`, the token
manager) and appear as function parameters. -/

abbrev Obj := List (String × String)

def omitKey (k : String) (o : Obj) : Obj :=
  o.filter fun p => decide (p.1 ≠ k)

theorem alistGet_omitKey (k : String) (o : Obj) :
    alistGet (omitKey k o) k = Option.none :=
  alistGet_filter_none _ _ _ (fun v => by simp [omitKey])

def objMerge (o : Obj) : List (String × String) → Obj
  | [] => o
  | (k, v) :: rest => objMerge (alistSet o k v) rest

structure UStore where
  users : List (String × Obj) := []
  rels : Rel String String := []
deriving DecidableEq

inductive UOut : Type where
  | user (u : Obj) (tok : Option String)
  | msg (m : String)
  | dispatched (code : Nat) (m : String)
  | invalid
deriving DecidableEq

structure UserRes where
  res : UOut
  store : UStore
  writes : List WriteOp
deriving DecidableEq

namespace UserM

def createUser (valid : Bool) (hash : String → String) (token newId : String)
    (st : UStore) (username email password role : String) : UserRes :=
  if valid then
    match alistGet st.users email with
    | some _ => ⟨.dispatched 409 "User already exists", st, []⟩
    | Option.none =>
      let block : Obj :=
        [("userId", newId), ("email", email), ("username", username),
         ("password", hash password), ("role", role)]
      ⟨.user (omitKey "password" block) (some token),
       { users := alistSet st.users email block,
         rels := relSetAll st.rels ("user:" ++ email) "_roles" [("role:" ++ role, 1)] },
       [.addBlock "user" email, .updateRels "user" email]⟩
  else ⟨.invalid, st, []⟩

def loginUser (valid : Bool) (verify : String → String → Bool) (token : String)
    (st : UStore) (email password : String) : UserRes :=
  if valid then
    match alistGet st.users email with
    | Option.none => ⟨.dispatched 404 "User not found", st, []⟩
    | some u =>
      if verify password ((alistGet u "password").getD "") then
        ⟨.user (omitKey "password" u) (some token), st, []⟩
      else ⟨.dispatched 401 "Invalid credentials", st, []⟩
  else ⟨.invalid, st, []⟩

def updateUser (valid : Bool) (st : UStore) (id : String)
    (username email role : Option String) : UserRes :=
  if valid then
    match alistGet st.users id with
    | Option.none => ⟨.dispatched 404 "User not found", st, []⟩
    | some u =>
      let updates :=
        (match username with | some v => [("username", v)] | Option.none => []) ++
        (match email with | some v => [("email", v)] | Option.none => []) ++
        (match role with | some v => [("role", v)] | Option.none => [])
      let merged := objMerge u updates
      ⟨.user (omitKey "password" merged) Option.none,
       { users := alistSet st.users id merged,
         rels :=
           match role with
           | some r => relSetAll st.rels ("user:" ++ id) "_roles" [("role:" ++ r, 1)]
           | Option.none => st.rels },
       (match role with
        | some _ => [WriteOp.updateRels "user" id]
        | Option.none => []) ++ [.updateBlock "user" id]⟩
  else ⟨.invalid, st, []⟩

def getUser (valid : Bool) (st : UStore) (id : String) : UserRes :=
  if valid then
    match alistGet st.users id with
    | Option.none => ⟨.dispatched 404 "User not found", st, []⟩
    | some u => ⟨.user (omitKey "password" u) Option.none, st, []⟩
  else ⟨.invalid, st, []⟩

end UserM

/-- C10: every user object returned by `createUser`, `loginUser`,
`updateUser` and `getUser` omits the `password` attribute, while the
stored user block written by `createUser` carries the hashed
password. -/
theorem user_payload_no_password :
    (∀ (valid : Bool) (hash : String → String) (token newId : String) (st : UStore)
       (username email password role : String) (u : Obj) (tok : Option String),
       (UserM.createUser valid hash token newId st username email password role).res =
         .user u tok →
       alistGet u "password" = Option.none) ∧
    (∀ (hash : String → String) (token newId : String) (st : UStore)
       (username email password role : String),
       alistGet st.users email = Option.none →
       ∃ b, alistGet (UserM.createUser true hash token newId st username email
           password role).store.users email = some b ∧
         alistGet b "password" = some (hash password)) ∧
    (∀ (valid : Bool) (verify : String → String → Bool) (token : String) (st : UStore)
       (email password : String) (u : Obj) (tok : Option String),
       (UserM.loginUser valid verify token st email password).res = .user u tok →
       alistGet u "password" = Option.none) ∧
    (∀ (valid : Bool) (st : UStore) (id : String) (username email role : Option String)
       (u : Obj) (tok : Option String),
       (UserM.updateUser valid st id username email role).res = .user u tok →
       alistGet u "password" = Option.none) ∧
    (∀ (valid : Bool) (st : UStore) (id : String) (u : Obj) (tok : Option String),
       (UserM.getUser valid st id).res = .user u tok →
       alistGet u "password" = Option.none) := by
  refine ⟨?_, ?_, ?_, ?_, ?_⟩
  · intro valid hash token newId st username email password role u tok h
    unfold UserM.createUser at h
    cases valid with
    | false => simp at h
    | true =>
      rw [if_pos rfl] at h
      cases he : alistGet st.users email with
      | some b => rw [he] at h; simp at h
      | none =>
        rw [he] at h
        dsimp only at h
        injection h with h1 h2
        exact h1 ▸ alistGet_omitKey "password" _
  · intro hash token newId st username email password role he
    unfold UserM.createUser
    rw [if_pos rfl, he]
    exact ⟨_, alistGet_set_self _ _ _, rfl⟩
  · intro valid verify token st email password u tok h
    unfold UserM.loginUser at h
    cases valid with
    | false => simp at h
    | true =>
      rw [if_pos rfl] at h
      cases he : alistGet st.users email with
      | none => rw [he] at h; simp at h
      | some u0 =>
        rw [he] at h
        dsimp only at h
        by_cases hvf : verify password ((alistGet u0 "password").getD "") = true
        · rw [if_pos hvf] at h
          injection h with h1 h2
          exact h1 ▸ alistGet_omitKey "password" _
        · rw [if_neg hvf] at h
          simp at h
  · intro valid st id username email role u tok h
    unfold UserM.updateUser at h
    cases valid with
    | false => simp at h
    | true =>
      rw [if_pos rfl] at h
      cases he : alistGet st.users id with
      | none => rw [he] at h; simp at h
      | some u0 =>
        rw [he] at h
        dsimp only at h
        injection h with h1 h2
        exact h1 ▸ alistGet_omitKey "password" _
  · intro valid st id u tok h
    unfold UserM.getUser at h
    cases valid with
    | false => simp at h
    | true =>
      rw [if_pos rfl] at h
      cases he : alistGet st.users id with
      | none => rw [he] at h; simp at h
      | some u0 =>
        rw [he] at h
        dsimp only at h
        injection h with h1 h2
        exact h1 ▸ alistGet_omitKey "password" _

/-- Witness for C10: concrete create, login, update and get runs, each
returning a user object without the `password` attribute, with the
created block keeping the hash. -/
theorem user_payload_no_password_witness :
    alistGet ([("userId", "n1"), ("email", "e1"), ("username", "un"),
      ("role", "user")] : Obj) "password" = Option.none ∧
    (∃ b, alistGet (UserM.createUser true (fun p => String.append p "h") "tok" "n1"
        ⟨[], []⟩ "un" "e1" "pw" "user").store.users "e1" = some b ∧
      alistGet b "password" = some (String.append "pw" "h")) ∧
    alistGet ([("email", "e1")] : Obj) "password" = Option.none ∧
    alistGet ([("username", "uu")] : Obj) "password" = Option.none ∧
    alistGet ([("role", "user")] : Obj) "password" = Option.none :=
  ⟨user_payload_no_password.1 true (fun p => String.append p "h") "tok" "n1"
     ⟨[], []⟩ "un" "e1" "pw" "user"
     [("userId", "n1"), ("email", "e1"), ("username", "un"), ("role", "user")]
     (some "tok") (by rfl),
   user_payload_no_password.2.1 (fun p => String.append p "h") "tok" "n1"
     ⟨[], []⟩ "un" "e1" "pw" "user" (by rfl),
   user_payload_no_password.2.2.1 true (fun _ _ => true) "tok"
     ⟨[("e1", [("password", "x"), ("email", "e1")])], []⟩ "e1" "pw"
     [("email", "e1")] (some "tok") (by rfl),
   user_payload_no_password.2.2.2.1 true
     ⟨[("e1", [("password", "x"), ("username", "uu")])], []⟩ "e1"
     Option.none Option.none Option.none [("username", "uu")] Option.none (by rfl),
   user_payload_no_password.2.2.2.2 true
     ⟨[("e1", [("password", "x"), ("role", "user")])], []⟩ "e1"
     [("role", "user")] Option.none (by rfl)⟩

end Axion
